import Mathlib

/-!
Verification of the password-generation core of `src/App.tsx`:
the charset builder, the secure sampler and the strength classifier.
Machine integers are modelled as `Nat` with explicit reduction modulo
`2 ^ 32` where the source uses `Uint32Array`.
-/

/-- The four strength tiers, `type PasswordStrength` in the source. -/
inductive PasswordStrength where
  | weak
  | medium
  | strong
  | veryStrong
  deriving DecidableEq, Repr

/-- The generation configuration: the `length` slider value plus the four
category toggles, in the order the source declares their state hooks. -/
structure GenerationConfig where
  length : Nat
  includeUppercase : Bool
  includeLowercase : Bool
  includeNumbers : Bool
  includeSymbols : Bool
  deriving DecidableEq, Repr

/-- `charset.lowercase` in `generatePassword`. -/
def charsetLowercase : String := "abcdefghijklmnopqrstuvwxyz"

/-- `charset.uppercase` in `generatePassword`. -/
def charsetUppercase : String := "ABCDEFGHIJKLMNOPQRSTUVWXYZ"

/-- `charset.numbers` in `generatePassword`. -/
def charsetNumbers : String := "0123456789"

/-- `charset.symbols` in `generatePassword` (braces escaped). -/
def charsetSymbols : String := "!@#$%^&*()_+-=[]\x7b\x7d|;:,.<>?"

/-- The alphabet construction of `generatePassword`: starting from the empty
string, append each enabled category's class string in the source's fixed
statement order (lowercase, uppercase, numbers, symbols). -/
def buildAlphabet (config : GenerationConfig) : String :=
  let characters := ""
  let characters := if config.includeLowercase then characters ++ charsetLowercase else characters
  let characters := if config.includeUppercase then characters ++ charsetUppercase else characters
  let characters := if config.includeNumbers then characters ++ charsetNumbers else characters
  let characters := if config.includeSymbols then characters ++ charsetSymbols else characters
  characters

/-- Spec-side restatement of the charset builder, for the refinement claim:
the concatenation, in the fixed order lowercase, uppercase, numbers, symbols,
of the class strings of the enabled categories. -/
def buildAlphabetSpec (config : GenerationConfig) : String :=
  (if config.includeLowercase then charsetLowercase else "") ++
    (if config.includeUppercase then charsetUppercase else "") ++
      (if config.includeNumbers then charsetNumbers else "") ++
        (if config.includeSymbols then charsetSymbols else "")

/-- `characters.charAt(r % characters.length)` in the sampling loop: the
alphabet character at index `r % length`.  The call sites only reach this
with a non-empty alphabet, so the index is always in range and the default
character is never produced. -/
def pickChar (characters : String) (r : Nat) : Char :=
  characters.data.getD (r % characters.length) 'a'

/-- The pure core of `generatePassword`: given the drawn 32-bit samples
(`array` in the source), return the empty string on an empty alphabet,
otherwise the concatenation of `characters.charAt(array[i] % characters.length)`
over the samples in order. -/
def generate (config : GenerationConfig) (samples : List Nat) : String :=
  let characters := buildAlphabet config
  if characters = "" then ""
  else String.mk (samples.map fun r => pickChar characters r)

/-- The generation failure taxonomy of the spec. -/
inductive GenerationError where
  | randomnessUnavailable
  deriving DecidableEq, Repr

/-- Modelled from the spec: the host randomness capability
(`window.crypto.getRandomValues` on a `Uint32Array` in the source) is
outside the repository.  It is either available — a sample function whose
draws are truncated to 32 bits — or unavailable, in which case the request
fails with `RandomnessUnavailable`. -/
def getRandomValues (source : Option (Nat → Nat)) (n : Nat) :
    Except GenerationError (List Nat) :=
  match source with
  | none => Except.error GenerationError.randomnessUnavailable
  | some f => Except.ok ((List.range n).map fun i => f i % 4294967296)

/-- `generatePassword` with the randomness boundary made explicit: empty
alphabet short-circuits before randomness is touched; otherwise the random
draw either fails (and the failure is surfaced unchanged — there is no other
randomness source in the program) or supplies the samples for `generate`. -/
def generateChecked (config : GenerationConfig) (source : Option (Nat → Nat)) :
    Except GenerationError String :=
  let characters := buildAlphabet config
  if characters = "" then Except.ok ""
  else
    match getRandomValues source config.length with
    | Except.error e => Except.error e
    | Except.ok array => Except.ok (String.mk (array.map fun r => pickChar characters r))

/-- `/[A-Z]/.test` on a single character. -/
def isUppercaseChar (c : Char) : Bool := decide ('A' ≤ c) && decide (c ≤ 'Z')

/-- `/[0-9]/.test` on a single character. -/
def isDigitChar (c : Char) : Bool := decide ('0' ≤ c) && decide (c ≤ '9')

/-- `a`–`z` membership, used to express `[^A-Za-z0-9]`. -/
def isLowercaseChar (c : Char) : Bool := decide ('a' ≤ c) && decide (c ≤ 'z')

/-- `/[^A-Za-z0-9]/.test` on a single character. -/
def isOutsideAlnum (c : Char) : Bool :=
  !(isUppercaseChar c || isLowercaseChar c || isDigitChar c)

/-- `/[A-Z]/.test(pwd)`. -/
def testUppercase (pwd : String) : Bool := pwd.data.any isUppercaseChar

/-- `/[0-9]/.test(pwd)`. -/
def testDigit (pwd : String) : Bool := pwd.data.any isDigitChar

/-- `/[^A-Za-z0-9]/.test(pwd)`. -/
def testOutsideAlnum (pwd : String) : Bool := pwd.data.any isOutsideAlnum

/-- The score accumulation of `calculateStrength`: `score` starts at 0 and is
incremented once per satisfied predicate, in the source's order. -/
def strengthScore (pwd : String) : Nat :=
  let score := 0
  let score := if pwd.length > 8 then score + 1 else score
  let score := if pwd.length > 12 then score + 1 else score
  let score := if testUppercase pwd then score + 1 else score
  let score := if testDigit pwd then score + 1 else score
  let score := if testOutsideAlnum pwd then score + 1 else score
  score

/-- The tier decision of `calculateStrength` applied to the accumulated
score. -/
def calculateStrength (pwd : String) : PasswordStrength :=
  let score := strengthScore pwd
  if score ≤ 2 then PasswordStrength.weak
  else if score = 3 then PasswordStrength.medium
  else if score = 4 then PasswordStrength.strong
  else PasswordStrength.veryStrong

/-- Spec-side restatement of the scoring function: the sum of the five
independent indicator predicates. -/
def specScore (pwd : String) : Nat :=
  (if pwd.length > 8 then 1 else 0) + (if pwd.length > 12 then 1 else 0) +
    (if testUppercase pwd then 1 else 0) + (if testDigit pwd then 1 else 0) +
      (if testOutsideAlnum pwd then 1 else 0)

/-- Spec-side restatement of the classifier: `score ≤ 2 → weak`,
`score = 3 → medium`, `score = 4 → strong`, `score ≥ 5 → very-strong`,
with the score of `specScore`. -/
def classifySpec (pwd : String) : PasswordStrength :=
  let score := specScore pwd
  if score ≤ 2 then PasswordStrength.weak
  else if score = 3 then PasswordStrength.medium
  else if score = 4 then PasswordStrength.strong
  else PasswordStrength.veryStrong

/-- The numeric level of a tier, from the source's strength-meter `levels`
map (`weak: 1, medium: 2, strong: 3, very-strong: 4`). -/
def tierLevel : PasswordStrength → Nat
  | PasswordStrength.weak => 1
  | PasswordStrength.medium => 2
  | PasswordStrength.strong => 3
  | PasswordStrength.veryStrong => 4

/-- The component state touched by a generation request: the `password` and
`strength` hooks. -/
structure AppState where
  password : String
  strength : PasswordStrength
  deriving DecidableEq, Repr

/-- The state effect of one `generatePassword` call with the given samples:
on an empty alphabet it sets `password` to `""` and returns early; otherwise
it sets `password` to the generated string and then `calculateStrength`
updates `strength` from it. -/
def generatePasswordStep (config : GenerationConfig) (samples : List Nat)
    (state : AppState) : AppState :=
  let characters := buildAlphabet config
  if characters = "" then { state with password := "" }
  else
    let generatedPassword := String.mk (samples.map fun r => pickChar characters r)
    { password := generatedPassword, strength := calculateStrength generatedPassword }

/-- Whether at least one of the four category toggles is enabled. -/
def anyCategoryEnabled (config : GenerationConfig) : Bool :=
  config.includeLowercase || config.includeUppercase ||
    config.includeNumbers || config.includeSymbols

theorem strengthScore_eq_specScore (pwd : String) : strengthScore pwd = specScore pwd := by
  simp only [strengthScore, specScore]
  split_ifs <;> rfl

theorem calculateStrength_eq_classifySpec (pwd : String) :
    calculateStrength pwd = classifySpec pwd := by
  simp only [calculateStrength, classifySpec, strengthScore_eq_specScore]

theorem buildAlphabet_eq_spec (config : GenerationConfig) :
    buildAlphabet config = buildAlphabetSpec config := by
  rcases config with ⟨len, u, l, n, s⟩
  cases u <;> cases l <;> cases n <;> cases s <;> rfl

theorem buildAlphabet_ne_empty (config : GenerationConfig)
    (hcat : anyCategoryEnabled config = true) : buildAlphabet config ≠ "" := by
  rcases config with ⟨len, u, l, n, s⟩
  rw [show buildAlphabet ⟨len, u, l, n, s⟩ = buildAlphabet ⟨0, u, l, n, s⟩ from rfl]
  cases u <;> cases l <;> cases n <;> cases s <;>
    simp only [anyCategoryEnabled, Bool.or_self, Bool.or_true, Bool.true_or,
      Bool.false_or, Bool.or_false, Bool.false_eq_true] at hcat <;> decide

/-- The initial configuration of the component: length 16, all four
categories enabled. -/
def defaultConfig : GenerationConfig := ⟨16, true, true, true, true⟩

theorem string_length_eq_data_length (s : String) : s.length = s.data.length := rfl

theorem string_data_mk (l : List Char) : (String.mk l).data = l := rfl

theorem data_ne_nil_of_ne_empty (s : String) (h : s ≠ "") : s.data ≠ [] :=
  fun hd => h (String.ext hd)

theorem pickChar_mem (characters : String) (r : Nat) (h : characters.data ≠ []) :
    pickChar characters r ∈ characters.data := by
  have hpos : 0 < characters.data.length := List.length_pos.mpr h
  have hlt : r % characters.data.length < characters.data.length := Nat.mod_lt _ hpos
  simp only [pickChar, string_length_eq_data_length, List.getD_eq_getElem?_getD,
    List.getElem?_eq_getElem hlt, Option.getD_some]
  exact List.getElem_mem hlt

theorem tierLevel_monotone_in_score (p q : String)
    (h : strengthScore q ≤ strengthScore p) :
    tierLevel (calculateStrength q) ≤ tierLevel (calculateStrength p) := by
  simp only [calculateStrength]
  split_ifs <;> simp only [tierLevel] <;> omega

/-- C1: for every configuration with at least one category enabled, given
`config.length` 32-bit samples, `generate` returns a string of exactly
`config.length` characters, each a character of `buildAlphabet config`. -/
theorem generate_length_and_alphabet_membership (config : GenerationConfig)
    (samples : List Nat) (hcat : anyCategoryEnabled config = true)
    (hn : samples.length = config.length) :
    (generate config samples).length = config.length ∧
      ∀ c ∈ (generate config samples).data, c ∈ (buildAlphabet config).data := by
  have hne := buildAlphabet_ne_empty config hcat
  have hdata := data_ne_nil_of_ne_empty _ hne
  simp only [generate]
  rw [if_neg hne]
  constructor
  · simp only [string_length_eq_data_length, string_data_mk, List.length_map, hn]
  · intro c hc
    rw [string_data_mk] at hc
    obtain ⟨r, _, rfl⟩ := List.mem_map.mp hc
    exact pickChar_mem _ r hdata

theorem generate_length_and_alphabet_membership_witness :
    anyCategoryEnabled defaultConfig = true ∧
      (List.range 16).length = defaultConfig.length ∧
      ((generate defaultConfig (List.range 16)).length = defaultConfig.length ∧
        ∀ c ∈ (generate defaultConfig (List.range 16)).data,
          c ∈ (buildAlphabet defaultConfig).data) :=
  ⟨by decide, by decide,
    generate_length_and_alphabet_membership defaultConfig (List.range 16)
      (by decide) (by decide)⟩

/-- C2: `calculateStrength` agrees everywhere with the reference classifier
(the sum of the five independent scoring predicates mapped through
`≤ 2 → weak`, `3 → medium`, `4 → strong`, `≥ 5 → very-strong`), and takes the
documented values on the four concrete cases. -/
theorem calculateStrength_reference_classifier :
    (∀ pwd : String, calculateStrength pwd = classifySpec pwd) ∧
      calculateStrength "abcdefg" = PasswordStrength.weak ∧
      calculateStrength "Abcdefghi" = PasswordStrength.weak ∧
      calculateStrength "Abcdefghi1" = PasswordStrength.medium ∧
      calculateStrength "Abcdefghijkl1!" = PasswordStrength.veryStrong :=
  ⟨calculateStrength_eq_classifySpec, by decide, by decide, by decide, by decide⟩

/-- C3: with all four categories disabled, generation returns the empty
string for any drawn samples, and `generateChecked` succeeds with the empty
string for any state of the randomness source — the empty alphabet is a
signaled state, not a failure. -/
theorem generate_all_disabled_returns_empty :
    ∀ (n : Nat) (samples : List Nat) (source : Option (Nat → Nat)),
      generate ⟨n, false, false, false, false⟩ samples = "" ∧
        generateChecked ⟨n, false, false, false, false⟩ source = Except.ok "" :=
  fun _ _ _ => ⟨rfl, rfl⟩

/-- C4: `buildAlphabet` concatenates the literal class strings of the enabled
categories in the fixed order lowercase, uppercase, numbers, symbols; in
particular enabling exactly lowercase and numbers yields the lowercase string
followed by the numbers string. -/
theorem buildAlphabet_fixed_order_concatenation :
    (∀ config : GenerationConfig, buildAlphabet config = buildAlphabetSpec config) ∧
      ∀ n : Nat, buildAlphabet ⟨n, false, true, true, false⟩ =
        charsetLowercase ++ charsetNumbers :=
  ⟨buildAlphabet_eq_spec, fun n =>
    (show buildAlphabet ⟨n, false, true, true, false⟩ =
        buildAlphabet ⟨0, false, true, true, false⟩ from rfl).trans (by decide)⟩

/-- C5: for a non-empty alphabet, the character of the generated password at
position `i` is the alphabet character at index `samples[i] mod alphabet
length`, samples being consumed in order with plain modulo reduction. -/
theorem generate_char_is_sample_mod_alphabet (config : GenerationConfig)
    (samples : List Nat) (i : Nat) (hcat : anyCategoryEnabled config = true)
    (hn : samples.length = config.length) (hi : i < config.length) :
    (generate config samples).data[i]? =
      (buildAlphabet config).data[samples.getD i 0 % (buildAlphabet config).length]? := by
  have hne := buildAlphabet_ne_empty config hcat
  have hdata := data_ne_nil_of_ne_empty _ hne
  have hilt : i < samples.length := by rw [hn]; exact hi
  have hs : samples.getD i 0 = samples[i] := by
    rw [List.getD_eq_getElem?_getD, List.getElem?_eq_getElem hilt, Option.getD_some]
  have hpos : 0 < (buildAlphabet config).data.length := List.length_pos.mpr hdata
  have hlt : samples[i] % (buildAlphabet config).data.length <
      (buildAlphabet config).data.length := Nat.mod_lt _ hpos
  simp only [generate]
  rw [if_neg hne, string_data_mk, List.getElem?_map, List.getElem?_eq_getElem hilt,
    hs, string_length_eq_data_length, List.getElem?_eq_getElem hlt]
  simp only [Option.map_some']
  rw [pickChar, string_length_eq_data_length, List.getD_eq_getElem?_getD,
    List.getElem?_eq_getElem hlt, Option.getD_some]

theorem generate_char_is_sample_mod_alphabet_witness :
    anyCategoryEnabled defaultConfig = true ∧
      (List.range 16).length = defaultConfig.length ∧ 3 < defaultConfig.length ∧
      (generate defaultConfig (List.range 16)).data[3]? =
        (buildAlphabet defaultConfig).data[(List.range 16).getD 3 0 %
          (buildAlphabet defaultConfig).length]? :=
  ⟨by decide, by decide, by decide,
    generate_char_is_sample_mod_alphabet defaultConfig (List.range 16) 3
      (by decide) (by decide) (by decide)⟩

/-- C6 (amended): the symbols class used by `buildAlphabet` is the literal
string `!@#$%^&*()_+-=[]\x7b\x7d|;:,.<>?` and it contains exactly 26
characters. -/
theorem charsetSymbols_literal_and_count :
    (∀ n : Nat, buildAlphabet ⟨n, false, false, false, true⟩ =
        "!@#$%^&*()_+-=[]\x7b\x7d|;:,.<>?") ∧
      charsetSymbols.length = 26 :=
  ⟨fun n =>
    (show buildAlphabet ⟨n, false, false, false, true⟩ =
        buildAlphabet ⟨0, false, false, false, true⟩ from rfl).trans (by decide),
    by decide⟩

/-- C6 counterexample: the symbols class string has 26 characters, not 27 as
the claim states. -/
theorem charsetSymbols_count_is_26_not_27 :
    charsetSymbols.length = 26 ∧ (charsetSymbols.length == 27) = false := by
  decide

/-- C7: when the secure random source is unavailable, generation with a
non-empty alphabet fails with `RandomnessUnavailable` and never produces a
password — the failure is surfaced, with no fallback source. -/
theorem generateChecked_randomness_unavailable (config : GenerationConfig)
    (hcat : anyCategoryEnabled config = true) :
    generateChecked config none = Except.error GenerationError.randomnessUnavailable ∧
      ∀ result : String, generateChecked config none ≠ Except.ok result := by
  have hne := buildAlphabet_ne_empty config hcat
  have hmain : generateChecked config none =
      Except.error GenerationError.randomnessUnavailable := by
    simp only [generateChecked, getRandomValues]
    rw [if_neg hne]
  refine ⟨hmain, fun result hcontra => ?_⟩
  rw [hmain] at hcontra
  exact Except.noConfusion hcontra

theorem generateChecked_randomness_unavailable_witness :
    anyCategoryEnabled defaultConfig = true ∧
      (generateChecked defaultConfig none =
          Except.error GenerationError.randomnessUnavailable ∧
        ∀ result : String, generateChecked defaultConfig none ≠ Except.ok result) :=
  ⟨by decide, generateChecked_randomness_unavailable defaultConfig (by decide)⟩

/-- C8: lowercase content contributes nothing to the strength tier: two
passwords of equal length that agree on the uppercase, digit and
outside-alphanumeric predicates classify identically. -/
theorem calculateStrength_ignores_lowercase (p q : String)
    (hlen : p.length = q.length) (hu : testUppercase p = testUppercase q)
    (hd : testDigit p = testDigit q) (hs : testOutsideAlnum p = testOutsideAlnum q) :
    calculateStrength p = calculateStrength q := by
  have hscore : strengthScore p = strengthScore q := by
    simp only [strengthScore, hlen, hu, hd, hs]
  simp only [calculateStrength, hscore]

theorem calculateStrength_ignores_lowercase_witness :
    ("aaaaaaaaa" : String).length = ("bbbbbbbbb" : String).length ∧
      testUppercase "aaaaaaaaa" = testUppercase "bbbbbbbbb" ∧
      testDigit "aaaaaaaaa" = testDigit "bbbbbbbbb" ∧
      testOutsideAlnum "aaaaaaaaa" = testOutsideAlnum "bbbbbbbbb" ∧
      calculateStrength "aaaaaaaaa" = calculateStrength "bbbbbbbbb" :=
  ⟨by decide, by decide, by decide, by decide,
    calculateStrength_ignores_lowercase "aaaaaaaaa" "bbbbbbbbb"
      (by decide) (by decide) (by decide) (by decide)⟩

/-- C9: `calculateStrength` is a pure function — equal inputs give equal
tiers — and the tier is monotone non-decreasing in the score, in the order
weak < medium < strong < very-strong given by `tierLevel`. -/
theorem calculateStrength_pure_and_monotone :
    (∀ pwd : String, calculateStrength pwd = calculateStrength pwd) ∧
      ∀ p q : String, strengthScore q ≤ strengthScore p →
        tierLevel (calculateStrength q) ≤ tierLevel (calculateStrength p) :=
  ⟨fun _ => rfl, tierLevel_monotone_in_score⟩

/-- C10: a generation call with all categories disabled clears the password
and returns before the classifier runs, leaving the previously computed
strength tier unchanged. -/
theorem generatePasswordStep_all_disabled_frame :
    ∀ (n : Nat) (samples : List Nat) (state : AppState),
      (generatePasswordStep ⟨n, false, false, false, false⟩ samples state).password = "" ∧
        (generatePasswordStep ⟨n, false, false, false, false⟩ samples state).strength =
          state.strength :=
  fun _ _ _ => ⟨rfl, rfl⟩
